import Mathlib

/-!
Shallow embedding of the authentication gate, identity verifier and
account ownership policy of the `channels` backend
(`src/user/utils/clerkauth.py`, `src/user/middleware/clerkauth.py`,
`src/user/views.py`, `src/user/serializers.py`, `src/user/models.py`).

Python exceptions are modelled by `Except PyError`; the external Clerk
provider is modelled by a function from the token to a four-way outcome
(session object, null session, validation error, any other exception such
as a transport failure).  Django's query set is a `List Account`; UUID
primary keys and timestamps are modelled as `Nat`.
-/

namespace Channels

/-- Exceptions that the Python code can raise: `PermissionDenied`,
`Http404` (raised by `get_object_or_404`), and any other exception
(e.g. a transport error escaping the Clerk SDK call). -/
inductive PyError where
  | permissionDenied
  | http404
  | otherError
deriving DecidableEq

/-- Outcome of `sdk.sessions.get(session_id=token)`: a session object
(recording whether it has a `user_id` attribute and, when it does, its
value), a `None` result, a raised `ResponseValidationError`, or any other
raised exception (transport failure etc.). -/
inductive ProviderResult where
  | session (hasUserId : Bool) (userId : String)
  | noSession
  | validationError
  | otherError
deriving DecidableEq

/-- The external identity provider, as a map from the token string to the
outcome of the provider call. -/
abbrev Provider := String → ProviderResult

/-- Python truthiness test `not s` for an optional string: `None` and the
empty string are falsy. -/
def isFalsyStr : Option String → Bool
  | none => true
  | some s => s == ""

/-- Embedding of `verify_auth_token` (src/user/utils/clerkauth.py).
`if not oauthtoken: raise PermissionDenied`; then the provider call; a
`None` session or a session without `user_id` raises `PermissionDenied`
(uncaught by the `except ResponseValidationError` clause);
`ResponseValidationError` is remapped to `PermissionDenied`; any other
exception from the provider call propagates unchanged. -/
def verify_auth_token (provider : Provider) (oauthtoken : Option String) :
    Except PyError String :=
  if isFalsyStr oauthtoken then .error .permissionDenied
  else
    match provider (oauthtoken.getD "") with
    | .session hasUserId userId =>
        if hasUserId then .ok userId else .error .permissionDenied
    | .noSession => .error .permissionDenied
    | .validationError => .error .permissionDenied
    | .otherError => .error .otherError

/-- An inbound HTTP request, keeping only what the embedded code reads:
the path, the value of `request.headers.get('HTTP_AUTHORIZATION')` (read
by the middleware) and the value of
`request.META.get('HTTP_AUTHORIZATION')` (read by the views). -/
structure Request where
  path : String
  gateHeader : Option String
  metaAuth : Option String

/-- `ClerkAuthMiddleware.EXEMPT_PATHS` (src/user/middleware/clerkauth.py). -/
def EXEMPT_PATHS : List String := ["/admin"]

/-- Python's `s.startswith(pre)`: literal character-by-character matching
at the start of the string. -/
def pyStartsWith (s pre : String) : Bool := pre.data.isPrefixOf s.data

/-- Embedding of `ClerkAuthMiddleware.__call__`
(src/user/middleware/clerkauth.py): exempt paths are forwarded at once;
a falsy credential header raises `PermissionDenied` before the verifier
is consulted; otherwise the verifier runs and any exception from it is
remapped to `PermissionDenied`, while success forwards the request
unmodified to `get_response`. -/
def middlewareCall {ρ : Type} (provider : Provider) (get_response : Request → ρ)
    (request : Request) : Except PyError ρ :=
  if EXEMPT_PATHS.any (fun p => pyStartsWith request.path p) then
    .ok (get_response request)
  else if isFalsyStr request.gateHeader then .error .permissionDenied
  else
    match verify_auth_token provider request.gateHeader with
    | .ok _ => .ok (get_response request)
    | .error _ => .error .permissionDenied

/-- The `Account` model (src/user/models.py); the UUID primary key and
the creation timestamp are modelled as naturals, the three nullable text
fields as optional strings. -/
structure Account where
  account_id : Nat
  clerk_id : Option String
  username : Option String
  display_pic : Option String
  created : Nat
deriving DecidableEq

/-- `AccountSerializer.Meta.fields` (src/user/serializers.py). -/
def AccountSerializer_fields : List String :=
  ["account_id", "username", "display_pic", "created"]

/-- The serialized representation produced by `AccountSerializer`:
exactly the four fields listed in `Meta.fields`. -/
structure SerializedAccount where
  account_id : Nat
  username : Option String
  display_pic : Option String
  created : Nat
deriving DecidableEq

/-- Serialization of one account by `AccountSerializer`. -/
def serializeAccount (a : Account) : SerializedAccount :=
  { account_id := a.account_id
    username := a.username
    display_pic := a.display_pic
    created := a.created }

/-- A request body for create / PATCH: the client may supply `username`,
`display_pic`, and even a `clerk_id`; the serializer only reads the two
writable fields (`clerk_id` is not in `Meta.fields`, `account_id` and
`created` are read-only). -/
structure AccountBody where
  username : Option String
  display_pic : Option String
  clerk_id : Option String

/-- Embedding of `AccountViewset.get_queryset` (src/user/views.py):
verify the token from `META`, filter the collection to the caller's
`clerk_id`; the bare `except:` remaps any exception to
`PermissionDenied`. -/
def get_queryset (provider : Provider) (store : List Account) (req : Request) :
    Except PyError (List Account) :=
  match verify_auth_token provider req.metaAuth with
  | .ok clerkid => .ok (store.filter (fun a => a.clerk_id == some clerkid))
  | .error _ => .error .permissionDenied

/-- `AccountViewset` list action: serialize the owner-filtered query set. -/
def accountViewset_list (provider : Provider) (store : List Account)
    (req : Request) : Except PyError (List SerializedAccount) :=
  match get_queryset provider store req with
  | .ok qs => .ok (qs.map serializeAccount)
  | .error e => .error e

/-- Embedding of `AccountsListView.list` (src/user/views.py): verify the
token (result unused), then `super().list` serializes the full,
unfiltered query set `Account.objects.all()`; the bare `except:` remaps
any exception to `PermissionDenied`. -/
def accountsListView_list (provider : Provider) (store : List Account)
    (req : Request) : Except PyError (List SerializedAccount) :=
  match verify_auth_token provider req.metaAuth with
  | .ok _ => .ok (store.map serializeAccount)
  | .error _ => .error .permissionDenied

/-- Embedding of `AccountViewset.perform_create` (src/user/views.py):
verify the token, then `serializer.save(clerk_id=clerkid)` inserts a
record whose `clerk_id` is the verified identifier and whose writable
fields come from the validated body (`clerk_id` in the body is ignored:
it is not a serializer field).  Returns the new store and the created
record; the bare `except:` remaps any exception to `PermissionDenied`. -/
def perform_create (provider : Provider) (store : List Account) (req : Request)
    (body : AccountBody) (newId : Nat) (now : Nat) :
    Except PyError (List Account × Account) :=
  match verify_auth_token provider req.metaAuth with
  | .ok clerkid =>
      let newAcc : Account :=
        { account_id := newId
          clerk_id := some clerkid
          username := body.username
          display_pic := body.display_pic
          created := now }
      .ok (store ++ [newAcc], newAcc)
  | .error _ => .error .permissionDenied

/-- `self.get_object()` on `AccountViewset`: look the primary key up in
`get_queryset()` (hence owner-filtered); a miss raises `Http404` via
`get_object_or_404`. -/
def viewset_get_object (provider : Provider) (store : List Account)
    (req : Request) (pk : Nat) : Except PyError Account :=
  match get_queryset provider store req with
  | .error e => .error e
  | .ok qs =>
      match qs.find? (fun a => a.account_id == pk) with
      | some a => .ok a
      | none => .error .http404

/-- Application of a validated PATCH body by `AccountSerializer`
(partial): only the writable fields `username` and `display_pic` can
change; `account_id` and `created` are read-only and `clerk_id` is not a
serializer field at all. -/
def applyPatchBody (a : Account) (body : AccountBody) : Account :=
  { a with
    username :=
      match body.username with
      | some v => some v
      | none => a.username
    display_pic :=
      match body.display_pic with
      | some v => some v
      | none => a.display_pic }

/-- Validation run by `serializer.is_valid(raise_exception=True)` inside
`super().partial_update`, against the `Account` model declaration
(src/user/models.py): a supplied `username` must fit
`CharField(max_length=16)` and respect `unique=True` against every other
stored record (the row being updated is excluded, as the framework's
unique validator does).  Fields absent from the body are not validated
(`partial=True`); the `URLField` format validation of a supplied
`display_pic` is abstracted as accepting. -/
def serializerValidPatch (store : List Account) (target : Account)
    (body : AccountBody) : Bool :=
  match body.username with
  | none => true
  | some v =>
      decide (v.length ≤ 16)
      && store.all fun b =>
           b.account_id == target.account_id || !(b.username == some v)

/-- Embedding of `AccountViewset.partial_update` (src/user/views.py):
verify the token, load the target via `self.get_object()` (the
owner-filtered lookup), reject when the loaded record's `clerk_id`
differs from the caller's, else `super().partial_update` validates the
body (`is_valid(raise_exception=True)`, whose `ValidationError` the bare
`except:` also turns into `PermissionDenied`) and saves the patched
record.  The pair is (HTTP result, store after the request); the bare
`except:` remaps any exception to `PermissionDenied`, and every
rejecting path leaves the store untouched (no save is reached). -/
def partial_update (provider : Provider) (store : List Account) (req : Request)
    (pk : Nat) (body : AccountBody) :
    Except PyError SerializedAccount × List Account :=
  match verify_auth_token provider req.metaAuth with
  | .error _ => (.error .permissionDenied, store)
  | .ok clerkid =>
      match viewset_get_object provider store req pk with
      | .error _ => (.error .permissionDenied, store)
      | .ok account =>
          if account.clerk_id == some clerkid then
            if serializerValidPatch store account body then
              let updated := applyPatchBody account body
              (.ok (serializeAccount updated),
               store.map (fun a => if a.account_id == pk then updated else a))
            else (.error .permissionDenied, store)
          else (.error .permissionDenied, store)

/-- The inner body of `AccountRetrieveView.get_object` (src/user/views.py)
before its `except:` clause: verify the token, then `super().get_object()`
looks the primary key up in the full, unfiltered query set and raises
`Http404` on a miss. -/
def accountRetrieveView_get_object_inner (provider : Provider)
    (store : List Account) (req : Request) (pk : Nat) : Except PyError Account :=
  match verify_auth_token provider req.metaAuth with
  | .error e => .error e
  | .ok _ =>
      match store.find? (fun a => a.account_id == pk) with
      | some a => .ok a
      | none => .error .http404

/-- Embedding of `AccountRetrieveView.get_object`: the bare `except:`
remaps every exception of the inner body — including the `Http404` of a
missing record — to `PermissionDenied`. -/
def accountRetrieveView_get_object (provider : Provider) (store : List Account)
    (req : Request) (pk : Nat) : Except PyError Account :=
  match accountRetrieveView_get_object_inner provider store req pk with
  | .ok a => .ok a
  | .error _ => .error .permissionDenied

/-! Helper lemmas shared by the ownership proofs. -/

/-- Two members of a store whose `account_id` columns are pairwise distinct
and whose ids agree are the same record. -/
theorem eq_of_mem_of_nodup_ids {store : List Account}
    (hnd : (store.map Account.account_id).Nodup)
    {a b : Account} (ha : a ∈ store) (hb : b ∈ store)
    (hid : a.account_id = b.account_id) : a = b :=
  List.inj_on_of_nodup_map hnd ha hb hid

/-- `find?` returns the distinguished member when it satisfies the predicate
and is the only member doing so. -/
theorem find?_eq_some_of_unique {p : Account → Bool} {l : List Account}
    {a : Account} (ha : a ∈ l) (hpa : p a = true)
    (huniq : ∀ b ∈ l, p b = true → b = a) : l.find? p = some a := by
  induction l with
  | nil => cases ha
  | cons x xs ih =>
    by_cases hx : p x = true
    · have hxa : x = a := huniq x (List.mem_cons_self _ _) hx
      rw [List.find?_cons_of_pos _ hx, hxa]
    · rw [List.find?_cons_of_neg _ (by simpa using hx)]
      rcases List.mem_cons.mp ha with h | h
      · exact absurd (h ▸ hpa) hx
      · exact ih h fun b hb hpb => huniq b (List.mem_cons_of_mem _ hb) hpb

/-! Claim theorems. -/

/-- C9: the serialized representation of an `Account` contains exactly the
fields `account_id`, `username`, `display_pic` and `created`, and is
independent of the record's `clerk_id`: changing `clerk_id` alone never
changes the serialized output, so the owner identifier is never leaked in a
response. -/
theorem c9_serialization_independent_of_clerk_id :
    (∀ (a : Account) (c : Option String),
      serializeAccount { a with clerk_id := c } = serializeAccount a)
    ∧ AccountSerializer_fields
      = ["account_id", "username", "display_pic", "created"] :=
  ⟨fun _ _ => rfl, rfl⟩

/-- C6: every request whose path has the configured exempt string "/admin"
as a literal character-level start is forwarded unmodified by the gate,
under every provider (so the verifier is never consulted) and regardless of
the credential header carried by the request. -/
theorem c6_exempt_path_forwarded {ρ : Type} (provider : Provider)
    (get_response : Request → ρ) (req : Request)
    (h : pyStartsWith req.path "/admin" = true) :
    middlewareCall provider get_response req = .ok (get_response req) := by
  simp [middlewareCall, EXEMPT_PATHS, h]

/-- Witness for C6: a concrete administrative request with no credential
header and an always-failing provider is still forwarded. -/
theorem c6_witness :
    middlewareCall (fun _ => ProviderResult.validationError)
      (fun _ => (7 : Nat)) ⟨"/admin/users/", none, none⟩ = .ok 7 :=
  c6_exempt_path_forwarded _ _ _ (by decide)

/-- C4: on a non-exempt request the gate rejects a falsy credential header
identically under every provider (the verifier is not consulted), and with
a truthy header it forwards exactly on verifier success while normalizing
every verifier failure, of either exception kind, to the same
permission-denied rejection. -/
theorem c4_gate_rejects_and_normalizes {ρ : Type} (provider : Provider)
    (get_response : Request → ρ) (req : Request)
    (hex : (EXEMPT_PATHS.any fun p => pyStartsWith req.path p) = false) :
    (isFalsyStr req.gateHeader = true →
      ∀ p2 : Provider,
        middlewareCall p2 get_response req = .error .permissionDenied)
    ∧ (isFalsyStr req.gateHeader = false →
      (∀ u, verify_auth_token provider req.gateHeader = .ok u →
        middlewareCall provider get_response req = .ok (get_response req))
      ∧ ∀ e, verify_auth_token provider req.gateHeader = .error e →
        middlewareCall provider get_response req = .error .permissionDenied) := by
  refine ⟨fun hf p2 => ?_, fun hf => ⟨fun u hu => ?_, fun e he => ?_⟩⟩
  · simp [middlewareCall, hex, hf]
  · simp [middlewareCall, hex, hf, hu]
  · simp [middlewareCall, hex, hf, he]

/-- Witness for C4: a concrete non-exempt request carrying no credential
header is rejected even though the provider would accept the session. -/
theorem c4_witness :
    middlewareCall (fun _ => ProviderResult.session true "user_1")
      (fun _ => (0 : Nat)) ⟨"/api/user/", none, none⟩
      = .error .permissionDenied :=
  (c4_gate_rejects_and_normalizes (fun _ => ProviderResult.session true "user_1")
    (fun _ => (0 : Nat)) ⟨"/api/user/", none, none⟩ (by decide)).1 rfl _

/-- C5 counterexample: when the provider call fails with a non-validation
exception (e.g. a transport failure), `verify_auth_token` does not fail
with `PermissionDenied` — the exception propagates unchanged, contradicting
the claim that every provider-call failure (validation or transport) is
normalized to Unauthenticated. -/
theorem c5_counterexample :
    verify_auth_token (fun _ => ProviderResult.otherError) (some "tok")
      = .error .otherError
    ∧ (Except.error PyError.otherError : Except PyError String)
      ≠ .error .permissionDenied :=
  ⟨rfl, by simp⟩

/-- C5 (amended): for a falsy (absent or empty) token the verifier fails
with `PermissionDenied` immediately, under every provider (no external call
made); for a truthy token it returns the session's `user_id` when the
provider yields a session carrying one, fails with `PermissionDenied` when
the provider yields a session lacking `user_id`, a null session, or raises
a validation error, and propagates any other provider failure (e.g. a
transport error) as that failure rather than as `PermissionDenied`. -/
theorem c5_verifier_characterization (provider : Provider)
    (tok : Option String) :
    (isFalsyStr tok = true →
      ∀ p2 : Provider, verify_auth_token p2 tok = .error .permissionDenied)
    ∧ (isFalsyStr tok = false →
      (∀ uid, provider (tok.getD "") = .session true uid →
        verify_auth_token provider tok = .ok uid)
      ∧ (∀ uid, provider (tok.getD "") = .session false uid →
        verify_auth_token provider tok = .error .permissionDenied)
      ∧ (provider (tok.getD "") = .noSession →
        verify_auth_token provider tok = .error .permissionDenied)
      ∧ (provider (tok.getD "") = .validationError →
        verify_auth_token provider tok = .error .permissionDenied)
      ∧ (provider (tok.getD "") = .otherError →
        verify_auth_token provider tok = .error .otherError)) := by
  refine ⟨fun hf p2 => by simp [verify_auth_token, hf],
    fun hf => ⟨fun uid h => by simp [verify_auth_token, hf, h],
      fun uid h => by simp [verify_auth_token, hf, h],
      fun h => by simp [verify_auth_token, hf, h],
      fun h => by simp [verify_auth_token, hf, h],
      fun h => by simp [verify_auth_token, hf, h]⟩⟩

/-- Witness for C5 (amended): a concrete truthy token whose session carries
a `user_id` verifies to that identifier. -/
theorem c5_witness :
    verify_auth_token (fun _ => ProviderResult.session true "user_1")
      (some "tok") = .ok "user_1" :=
  ((c5_verifier_characterization (fun _ => ProviderResult.session true "user_1")
    (some "tok")).2 rfl).1 "user_1" rfl

/-- C8 counterexample: a provider session whose `user_id` is the empty
string makes the verifier succeed with an empty identifier, and the gate
still forwards the request — contradicting the claim that no request is
forwarded when the identifier the verifier returns is empty. -/
theorem c8_counterexample :
    middlewareCall (fun _ => ProviderResult.session true "")
      (fun _ => (0 : Nat)) ⟨"/api/user/", some "tok", some "tok"⟩ = .ok 0
    ∧ verify_auth_token (fun _ => ProviderResult.session true "") (some "tok")
      = .ok ""
    ∧ ("" : String).length = 0 :=
  ⟨rfl, rfl, rfl⟩

/-- C8 (amended): a non-exempt request is forwarded past the gate iff the
credential header is truthy and the verifier succeeds on it; the gate never
inspects the returned identifier, which may in particular be empty (and
exempt-path requests are forwarded without any verification at all). -/
theorem c8_forward_iff_verify_succeeds {ρ : Type} (provider : Provider)
    (get_response : Request → ρ) (req : Request)
    (hex : (EXEMPT_PATHS.any fun p => pyStartsWith req.path p) = false) :
    middlewareCall provider get_response req = .ok (get_response req)
    ↔ isFalsyStr req.gateHeader = false
      ∧ ∃ u, verify_auth_token provider req.gateHeader = .ok u := by
  by_cases hf : isFalsyStr req.gateHeader
  · simp [middlewareCall, hex, hf]
  · cases hv : verify_auth_token provider req.gateHeader with
    | ok u =>
      simp [middlewareCall, hex, hf, hv]
    | error e =>
      simp [middlewareCall, hex, hf, hv]

/-- Witness for C8 (amended): a concrete non-exempt request with a truthy
header and an accepting provider is forwarded. -/
theorem c8_witness :
    middlewareCall (fun _ => ProviderResult.session true "user_1")
      (fun _ => (3 : Nat)) ⟨"/api/user/", some "tok", some "tok"⟩ = .ok 3 :=
  (c8_forward_iff_verify_succeeds _ _ _ (by decide)).mpr ⟨rfl, "user_1", rfl⟩

/-- C3: whenever the verifier accepts the caller as `u`, create succeeds
and the stored record's `clerk_id` is exactly `some u`; moreover the
outcome is unchanged under any client-supplied `clerk_id` in the request
body: the owner field is server-derived, never client-supplied. -/
theorem c3_create_stamps_verified_owner (provider : Provider)
    (store : List Account) (req : Request) (body : AccountBody)
    (newId now : Nat) (u : String)
    (hv : verify_auth_token provider req.metaAuth = .ok u) :
    perform_create provider store req body newId now
      = .ok (store ++ [{ account_id := newId, clerk_id := some u,
                         username := body.username,
                         display_pic := body.display_pic, created := now }],
             { account_id := newId, clerk_id := some u,
               username := body.username,
               display_pic := body.display_pic, created := now })
    ∧ ∀ c : Option String,
      perform_create provider store req { body with clerk_id := c } newId now
        = perform_create provider store req body newId now := by
  exact ⟨by simp [perform_create, hv], fun c => rfl⟩

/-- Witness for C3: a concrete create whose body tries to spoof the owner
field still stores the verified identifier. -/
theorem c3_witness :
    perform_create (fun _ => ProviderResult.session true "user_1")
      [] ⟨"/api/user/", some "tok", some "tok"⟩
      ⟨some "bob", none, some "spoofed_owner"⟩ 5 9
      = .ok ([⟨5, some "user_1", some "bob", none, 9⟩],
             ⟨5, some "user_1", some "bob", none, 9⟩) :=
  (c3_create_stamps_verified_owner (fun _ => ProviderResult.session true "user_1")
    [] ⟨"/api/user/", some "tok", some "tok"⟩
    ⟨some "bob", none, some "spoofed_owner"⟩ 5 9 "user_1" rfl).1

/-- C1: evaluation at the failing input: with two stored accounts owned by
U1 and U2 and a caller the provider verifies as U1, the viewset list
returns exactly U1's record, while `AccountsListView.list` returns both
records — including the record owned by U2 — so not every list endpoint
filters by owner. -/
theorem c1_list_endpoints_divergence :
    accountViewset_list (fun _ => ProviderResult.session true "U1")
      [⟨1, some "U1", some "user1", none, 0⟩,
       ⟨2, some "U2", some "user2", none, 0⟩]
      ⟨"/api/user/", some "tok", some "tok"⟩
      = .ok [⟨1, some "user1", none, 0⟩]
    ∧ accountsListView_list (fun _ => ProviderResult.session true "U1")
      [⟨1, some "U1", some "user1", none, 0⟩,
       ⟨2, some "U2", some "user2", none, 0⟩]
      ⟨"/api/user/list/", some "tok", some "tok"⟩
      = .ok [⟨1, some "user1", none, 0⟩, ⟨2, some "user2", none, 0⟩] :=
  ⟨rfl, rfl⟩

/-- C7 counterexample: with a valid credential and a store not containing
the requested id, `AccountRetrieveView.get_object` yields
`PermissionDenied`, not the claimed not-found result: the inner body raises
`Http404` and the bare `except:` converts it. -/
theorem c7_counterexample :
    accountRetrieveView_get_object_inner
      (fun _ => ProviderResult.session true "U1") []
      ⟨"/api/user/retrieve/1/", some "tok", some "tok"⟩ 1 = .error .http404
    ∧ accountRetrieveView_get_object
      (fun _ => ProviderResult.session true "U1") []
      ⟨"/api/user/retrieve/1/", some "tok", some "tok"⟩ 1
      = .error .permissionDenied
    ∧ (Except.error PyError.permissionDenied : Except PyError Account)
      ≠ .error .http404 :=
  ⟨rfl, rfl, by simp⟩

/-- C7 (amended): for an authenticated caller, retrieve-by-id on
`AccountRetrieveView` returns the record whenever a record with that id
exists — independent of whether its owner matches the caller — and yields a
`PermissionDenied` rejection (not a 404) when no such record exists, the
handler's bare `except:` converting the internal `Http404`. -/
theorem c7_retrieve_behavior (provider : Provider) (store : List Account)
    (req : Request) (pk : Nat) (u : String)
    (hv : verify_auth_token provider req.metaAuth = .ok u) :
    (store.find? (fun a => a.account_id == pk) = none →
      accountRetrieveView_get_object provider store req pk
        = .error .permissionDenied)
    ∧ ∀ a, store.find? (fun a => a.account_id == pk) = some a →
      accountRetrieveView_get_object provider store req pk = .ok a := by
  constructor
  · intro h
    simp [accountRetrieveView_get_object,
      accountRetrieveView_get_object_inner, hv, h]
  · intro a h
    simp [accountRetrieveView_get_object,
      accountRetrieveView_get_object_inner, hv, h]

/-- Witness for C7 (amended): a concrete record owned by U2 is retrieved by
a caller verified as U1. -/
theorem c7_witness :
    accountRetrieveView_get_object (fun _ => ProviderResult.session true "U1")
      [⟨2, some "U2", some "user2", none, 0⟩]
      ⟨"/api/user/retrieve/2/", some "tok", some "tok"⟩ 2
      = .ok ⟨2, some "U2", some "user2", none, 0⟩ :=
  (c7_retrieve_behavior (fun _ => ProviderResult.session true "U1")
    [⟨2, some "U2", some "user2", none, 0⟩]
    ⟨"/api/user/retrieve/2/", some "tok", some "tok"⟩ 2 "U1" rfl).2 _ rfl

/-- C2 counterexample: an ownership-matching PATCH whose body fails
serializer validation — here a 17-character username over the model's
`max_length=16` — is rejected with `PermissionDenied` (the handler's bare
`except:` catching the `ValidationError`) and leaves the store unchanged,
refuting the claimed direction that matching ownership suffices for the
update to succeed. -/
theorem c2_counterexample :
    partial_update (fun _ => ProviderResult.session true "U1")
      [⟨1, some "U1", some "user1", none, 0⟩]
      ⟨"/api/user/1/", some "tok", some "tok"⟩ 1
      ⟨some "aaaaaaaaaaaaaaaaa", none, none⟩
      = (.error .permissionDenied, [⟨1, some "U1", some "user1", none, 0⟩])
    ∧ (⟨1, some "U1", some "user1", none, 0⟩ : Account).clerk_id
      = some "U1" :=
  ⟨rfl, rfl⟩

/-- C2 (amended): with a verified caller `u`, pairwise-distinct stored ids,
and an existing target record, a PATCH succeeds only if the target's
`clerk_id` equals the caller's verified identifier (success additionally
requires the body to pass serializer validation, and with a matching owner
and a valid body the update does succeed); when the owner differs the
request is rejected with `PermissionDenied` and the store is returned
unchanged. -/
theorem c2_patch_only_if_owner (provider : Provider) (store : List Account)
    (req : Request) (pk : Nat) (body : AccountBody) (acc : Account)
    (u : String)
    (hv : verify_auth_token provider req.metaAuth = .ok u)
    (hnd : (store.map Account.account_id).Nodup)
    (hmem : acc ∈ store) (hid : acc.account_id = pk) :
    ((∃ r, (partial_update provider store req pk body).1 = .ok r)
      → acc.clerk_id = some u)
    ∧ (acc.clerk_id = some u →
      serializerValidPatch store acc body = true →
      ∃ r, (partial_update provider store req pk body).1 = .ok r)
    ∧ (acc.clerk_id ≠ some u →
      partial_update provider store req pk body
        = (.error .permissionDenied, store)) := by
  have hqs : get_queryset provider store req
      = .ok (store.filter fun a => a.clerk_id == some u) := by
    simp [get_queryset, hv]
  by_cases hown : acc.clerk_id = some u
  · have hfind : (store.filter fun a => a.clerk_id == some u).find?
        (fun a => a.account_id == pk) = some acc := by
      apply find?_eq_some_of_unique
      · exact List.mem_filter.mpr ⟨hmem, by simp [hown]⟩
      · simp [hid]
      · intro b hb hpb
        have hbmem := (List.mem_filter.mp hb).1
        have hbid : b.account_id = pk := by simpa using hpb
        exact eq_of_mem_of_nodup_ids hnd hbmem hmem (by rw [hbid, hid])
    have hobj : viewset_get_object provider store req pk = .ok acc := by
      simp [viewset_get_object, hqs, hfind]
    refine ⟨fun _ => hown, fun _ hvalid => ?_, fun hne => absurd hown hne⟩
    exact ⟨serializeAccount (applyPatchBody acc body),
      by simp [partial_update, hv, hobj, hown, hvalid]⟩
  · have hfind : (store.filter fun a => a.clerk_id == some u).find?
        (fun a => a.account_id == pk) = none := by
      rw [List.find?_eq_none]
      intro b hb hpb
      rcases List.mem_filter.mp hb with ⟨hbmem, hbown⟩
      have hbid : b.account_id = pk := by simpa using hpb
      have hb_eq : b = acc :=
        eq_of_mem_of_nodup_ids hnd hbmem hmem (by rw [hbid, hid])
      apply hown
      have hbown' := hbown
      rw [hb_eq] at hbown'
      simpa using hbown'
    have hobj : viewset_get_object provider store req pk
        = .error .http404 := by
      simp [viewset_get_object, hqs, hfind]
    have hres : partial_update provider store req pk body
        = (.error .permissionDenied, store) := by
      simp [partial_update, hv, hobj]
    refine ⟨fun hr => ?_, fun h => absurd h hown, fun _ => hres⟩
    rcases hr with ⟨r, hr⟩
    rw [hres] at hr
    cases hr

/-- Witness for C2 (amended): a concrete cross-tenant PATCH (caller U2,
record owned by U1) is rejected and the store is unchanged. -/
theorem c2_witness :
    partial_update (fun _ => ProviderResult.session true "U2")
      [⟨1, some "U1", some "user1", none, 0⟩]
      ⟨"/api/user/1/", some "tok", some "tok"⟩ 1 ⟨some "hacked", none, none⟩
      = (.error .permissionDenied, [⟨1, some "U1", some "user1", none, 0⟩]) :=
  (c2_patch_only_if_owner (fun _ => ProviderResult.session true "U2")
    [⟨1, some "U1", some "user1", none, 0⟩]
    ⟨"/api/user/1/", some "tok", some "tok"⟩ 1 ⟨some "hacked", none, none⟩
    ⟨1, some "U1", some "user1", none, 0⟩ "U2" rfl (by decide) (by decide)
    rfl).2.2 (by decide)

/-- C10: every successful PATCH leaves the `(account_id, clerk_id)` column
of the store unchanged: ownership is stamped at creation and cannot be
changed through the update interface, `clerk_id` not being among the
serializer's writable fields. -/
theorem c10_patch_preserves_ownership (provider : Provider)
    (store : List Account) (req : Request) (pk : Nat) (body : AccountBody)
    (hnd : (store.map Account.account_id).Nodup) (s : SerializedAccount)
    (hok : (partial_update provider store req pk body).1 = .ok s) :
    (partial_update provider store req pk body).2.map
        (fun a => (a.account_id, a.clerk_id))
      = store.map fun a => (a.account_id, a.clerk_id) := by
  cases hv : verify_auth_token provider req.metaAuth with
  | error e => simp [partial_update, hv] at hok
  | ok u =>
    cases hobj : viewset_get_object provider store req pk with
    | error e => simp [partial_update, hv, hobj] at hok
    | ok account =>
      by_cases hown : (account.clerk_id == some u) = true
      · have hfind : (store.filter fun a => a.clerk_id == some u).find?
            (fun a => a.account_id == pk) = some account := by
          have := hobj
          simp only [viewset_get_object, get_queryset, hv] at this
          cases hfind' : (store.filter fun a => a.clerk_id == some u).find?
              (fun a => a.account_id == pk) with
          | none => rw [hfind'] at this; cases this
          | some b => rw [hfind'] at this; cases this; rfl
        have hmem : account ∈ store :=
          (List.mem_filter.mp (List.mem_of_find?_eq_some hfind)).1
        have hpk : account.account_id = pk := by
          simpa using List.find?_some hfind
        by_cases hvalid : serializerValidPatch store account body = true
        case neg => simp [partial_update, hv, hobj, hown, hvalid] at hok
        have h2 : (partial_update provider store req pk body).2
            = store.map fun a =>
                if a.account_id == pk then applyPatchBody account body
                else a := by
          simp [partial_update, hv, hobj, hown, hvalid]
        rw [h2, List.map_map]
        apply List.map_congr_left
        intro a ha
        simp only [Function.comp]
        by_cases hapk : (a.account_id == pk) = true
        · have haid : a.account_id = pk := by simpa using hapk
          have ha_eq : a = account :=
            eq_of_mem_of_nodup_ids hnd ha hmem (haid.trans hpk.symm)
          subst ha_eq
          simp [applyPatchBody, haid, hapk]
        · have haid : ¬ a.account_id = pk := by simpa using hapk
          simp [hapk, haid]
      · simp [partial_update, hv, hobj, hown] at hok

/-- Witness for C10: a concrete successful PATCH that renames the account
(and tries to spoof the owner in the body) leaves the ownership column
unchanged. -/
theorem c10_witness :
    (partial_update (fun _ => ProviderResult.session true "U1")
        [⟨1, some "U1", some "olduser", none, 0⟩]
        ⟨"/api/user/1/", some "tok", some "tok"⟩ 1
        ⟨some "newuser", none, some "spoofed"⟩).2.map
        (fun a => (a.account_id, a.clerk_id))
      = ([⟨1, some "U1", some "olduser", none, 0⟩] : List Account).map
          fun a => (a.account_id, a.clerk_id) :=
  c10_patch_preserves_ownership (fun _ => ProviderResult.session true "U1")
    [⟨1, some "U1", some "olduser", none, 0⟩]
    ⟨"/api/user/1/", some "tok", some "tok"⟩ 1
    ⟨some "newuser", none, some "spoofed"⟩ (by decide)
    ⟨1, some "newuser", none, 0⟩ rfl

end Channels
